import Mathlib

/-!
Verification of a Teams AI bot relay consisting of three Python modules:
`config.py` (environment-driven settings), `bot.py` (token cache, reply
sender, message handlers) and `app.py` (FastAPI routes).  Network calls,
JSON parsing of the request body, and the language-model invocation are
modelled as explicit oracle parameters; the process-wide token cache is
modelled as explicit state passed in and out.
-/

namespace TeamsBot

/-- Process environment: an association list from variable names to values,
modelling `os.environ` (a missing key is `none` under `lookup`). -/
abbrev Env := List (String × String)

/-- Python string truthiness for an optional string: `None` and the empty
string are falsy, every other string is truthy. -/
def truthyOpt : Option String → Bool
  | none => false
  | some s => s ≠ ""

/-- Python `a or b` on strings: `a` if non-empty, else `b`. -/
def pyOrStr (a b : String) : String :=
  if a ≠ "" then a else b

/-- Python `str.lower()` restricted to ASCII case mapping, applied
character-wise (the strings compared in `config.py` are ASCII). -/
def pyLower (s : String) : String :=
  ⟨s.data.map Char.toLower⟩

/-- Embeds `os.environ.get(key, default).lower() == "true"` from
`config.py` lines 19 and 22. -/
def pyBoolEnv (env : Env) (key dflt : String) : Bool :=
  pyLower ((env.lookup key).getD dflt) == "true"

/-- Settings object built by `class Config` in `config.py`. -/
structure Config where
  PORT : Int
  DEVELOPMENT_MODE : Bool
  TEAMS_REPLY_ENABLED : Bool
  APP_ID : String
  APP_PASSWORD : String
  APP_TYPE : String
  APP_TENANTID : String
  OPENAI_API_KEY : String
  OPENAI_MODEL_NAME : String
deriving DecidableEq, Repr

/-- Embeds `int(os.environ.get("PORT", 3978))` (`config.py` line 16):
absent variable gives the integer default, a present value must parse as an
integer or the class body raises `ValueError`. -/
def portFromEnv (env : Env) : Except String Int :=
  match env.lookup "PORT" with
  | none => .ok 3978
  | some s =>
    match s.trim.toInt? with
    | some n => .ok n
    | none => .error ("ValueError: invalid literal for int() with base 10: " ++ s)

/-- Embeds the `Config` class body of `config.py`: each field is read from
the environment with its stated default; `OPENAI_API_KEY` uses the raising
lookup `os.environ["OPENAI_API_KEY"]` (line 28), so an absent variable
makes construction fail with a `KeyError`.  The non-raising field reads are
pure, so gathering them in the success branch preserves the class body's
semantics. -/
def mkConfig (env : Env) : Except String Config :=
  match portFromEnv env with
  | .error e => .error e
  | .ok port =>
    match env.lookup "OPENAI_API_KEY" with
    | none => .error "KeyError: OPENAI_API_KEY"
    | some key =>
      .ok { PORT := port
            DEVELOPMENT_MODE := pyBoolEnv env "DEVELOPMENT_MODE" "true"
            TEAMS_REPLY_ENABLED := pyBoolEnv env "TEAMS_REPLY_ENABLED" "false"
            APP_ID := (env.lookup "BOT_ID").getD ""
            APP_PASSWORD := (env.lookup "BOT_PASSWORD").getD ""
            APP_TYPE := (env.lookup "BOT_TYPE").getD ""
            APP_TENANTID := (env.lookup "BOT_TENANT_ID").getD ""
            OPENAI_API_KEY := key
            OPENAI_MODEL_NAME := "gpt-3.5-turbo" }

/-- The running HTTP listener (`uvicorn.run` in `app.py`): host and port. -/
structure Server where
  host : String
  port : Int
deriving DecidableEq, Repr

/-- Process startup order of `app.py`: importing `bot` constructs the
`Config` (bot.py line 19) before `uvicorn.run` binds the listener, and no
handler catches a construction failure. -/
def runProcess (env : Env) : Except String Server :=
  match mkConfig env with
  | .error e => .error e
  | .ok c => .ok ⟨"0.0.0.0", c.PORT⟩

/-- Process-wide token cache of `bot.py` lines 22-23: the globals
`_bot_access_token` and `_token_expires_at`. -/
structure TokenState where
  bot_access_token : Option String
  token_expires_at : Int
deriving DecidableEq, Repr

/-- Parsed JSON body of a token-endpoint response: the fields read by
`token_response.get("access_token")` and `.get("expires_in", 3600)`. -/
structure TokenBody where
  access_token : Option String
  expires_in : Option Int
deriving DecidableEq, Repr

/-- Oracle for the OAuth token endpoint round trip in
`get_bot_access_token`: a 200 response with parsed JSON body, a non-200
status with its text, or a raised transport exception. -/
inductive HttpTokenResult where
  | ok (body : TokenBody)
  | errStatus (status : Nat) (text : String)
  | exn (msg : String)
deriving DecidableEq, Repr

/-- Result of one `get_bot_access_token` call: the returned value, the
token cache afterwards, and whether the token endpoint was contacted. -/
structure TokenFetchOut where
  result : Option String
  state : TokenState
  requestMade : Bool
deriving DecidableEq, Repr

/-- Embeds `get_bot_access_token` (`bot.py` lines 26-73).  `now` is
`time.time()` (modelled in whole seconds), `net` the token-endpoint oracle.
The cache-hit test is Python truthiness of the global plus
`current_time < _token_expires_at`; on a miss with missing credentials it
returns `None` without a network call; on 200 it stores
`access_token` and expiry `now + expires_in - 60` (default 3600) and
returns the stored token; on any other status or exception it returns
`None` leaving the cache unchanged. -/
def get_bot_access_token (cfg : Config) (st : TokenState) (now : Int)
    (net : HttpTokenResult) : TokenFetchOut :=
  if truthyOpt st.bot_access_token = true ∧ now < st.token_expires_at then
    ⟨st.bot_access_token, st, false⟩
  else if cfg.APP_ID = "" ∨ cfg.APP_PASSWORD = "" then
    ⟨none, st, false⟩
  else
    match net with
    | .ok body =>
      let tok := body.access_token
      let expires_in := body.expires_in.getD 3600
      ⟨tok, ⟨tok, now + expires_in - 60⟩, true⟩
    | .errStatus _ _ => ⟨none, st, true⟩
    | .exn _ => ⟨none, st, true⟩

/-- Oracle for the reply POST round trip in `send_teams_reply`: the HTTP
status with response text, or a raised transport exception. -/
inductive PostResult where
  | status (code : Nat) (text : String)
  | exn (msg : String)
deriving DecidableEq, Repr

/-- Outbound reply activity built by `send_teams_reply` (`bot.py` lines
178-186): `type` is the constant `"message"` and `from.name` the constant
`"Teams AI Bot"`, so only the varying fields are carried. -/
structure ReplyActivity where
  text : String
  fromId : String
  replyToId : String
deriving DecidableEq, Repr

/-- Result of one `send_teams_reply` call: the returned boolean, the token
cache afterwards, whether the token endpoint was contacted, whether a
bearer token was attached, the constructed reply URL and activity, and the
number of POSTs of the reply (always one: the function never retries). -/
structure SendOut where
  success : Bool
  state : TokenState
  tokenRequestMade : Bool
  authAttached : Bool
  reply_url : String
  activity : ReplyActivity
  postAttempts : Nat
deriving DecidableEq, Repr

/-- Embeds `send_teams_reply` (`bot.py` lines 171-227).  It builds the
reply URL and activity (sender id `app_id or config.APP_ID or "bot-dev"`),
obtains a token through `get_bot_access_token` (which may update the
cache), attaches it as a bearer header when truthy, POSTs the activity
once, returns `True` on status 200 or 201, and on any other status returns
`False` — additionally clearing the token cache when the status is 401 and
a token was attached.  A transport exception also returns `False`. -/
def send_teams_reply (cfg : Config)
    (service_url conversation_id activity_id bot_response : String)
    (app_id : Option String) (st : TokenState) (now : Int)
    (tokenNet : HttpTokenResult) (postNet : PostResult) : SendOut :=
  let reply_url :=
    service_url ++ "v3/conversations/" ++ conversation_id ++ "/activities/" ++ activity_id
  let fromId := pyOrStr (app_id.getD "") (pyOrStr cfg.APP_ID "bot-dev")
  let reply_activity : ReplyActivity := ⟨bot_response, fromId, activity_id⟩
  let fetched := get_bot_access_token cfg st now tokenNet
  let attached := truthyOpt fetched.result
  match postNet with
  | .exn _ =>
    ⟨false, fetched.state, fetched.requestMade, attached, reply_url, reply_activity, 1⟩
  | .status code _ =>
    if code = 200 ∨ code = 201 then
      ⟨true, fetched.state, fetched.requestMade, attached, reply_url, reply_activity, 1⟩
    else if code = 401 ∧ attached = true then
      ⟨false, ⟨none, 0⟩, fetched.requestMade, attached, reply_url, reply_activity, 1⟩
    else
      ⟨false, fetched.state, fetched.requestMade, attached, reply_url, reply_activity, 1⟩

/-- Inbound channel activity: the fields of the webhook JSON body read by
`app.py` and `handle_teams_message` (each `none` when the key is absent). -/
structure Activity where
  type? : Option String
  text? : Option String
  fromName? : Option String
  conversationId? : Option String
  id? : Option String
  serviceUrl? : Option String
deriving DecidableEq, Repr

/-- The `teams_context` block of `handle_teams_message`'s success result
(`bot.py` lines 301-306). -/
structure TeamsContext where
  user : String
  conversation_id : String
  activity_id : String
  service_url : String
deriving DecidableEq, Repr

/-- Result dictionary of `handle_teams_message`: the success shape of
lines 296-307 or the exception shape of lines 312-317 (whose
`bot_response` is `"Teams OpenAI алдаа: "` followed by the exception
text and whose flags are both `False`). -/
inductive TeamsResult where
  | ok (bot_response : String) (reply_sent reply_attempted teams_reply_enabled : Bool)
      (ctx : TeamsContext)
  | err (errMsg : String)
deriving DecidableEq, Repr

/-- The `bot_response` entry of a `handle_teams_message` result. -/
def TeamsResult.bot_response : TeamsResult → String
  | .ok r _ _ _ _ => r
  | .err e => "Teams OpenAI алдаа: " ++ e

/-- The `reply_sent` entry of a `handle_teams_message` result. -/
def TeamsResult.reply_sent : TeamsResult → Bool
  | .ok _ s _ _ _ => s
  | .err _ => false

/-- The `reply_attempted` entry of a `handle_teams_message` result. -/
def TeamsResult.reply_attempted : TeamsResult → Bool
  | .ok _ _ a _ _ => a
  | .err _ => false

/-- The `teams_context` entry of a `handle_teams_message` result (absent
from the exception-shape dictionary). -/
def TeamsResult.ctx? : TeamsResult → Option TeamsContext
  | .ok _ _ _ _ c => some c
  | .err _ => none

/-- Embeds `handle_teams_message` (`bot.py` lines 230-317).  `llm` is the
oracle for the chat-completion call on the user message (already including
the `.strip()` of the first choice's content, or the text of any exception
raised inside the `try` block); `sendResult` is the boolean returned by
`send_teams_reply` when it is invoked.  Field extraction applies the
source defaults: `from.name ↦ "User"`, `conversation.id ↦ "unknown"`,
`id ↦ "unknown"`, `serviceUrl ↦ ""`.  Delivery is attempted
(`reply_attempted = true`, `send_teams_reply` called) exactly when
`TEAMS_REPLY_ENABLED` holds and the three extracted strings are truthy. -/
def handle_teams_message (cfg : Config) (user_message : String)
    (teams_activity : Activity) (llm : String → Except String String)
    (sendResult : Bool) : TeamsResult :=
  let user_name := teams_activity.fromName?.getD "User"
  let conversation_id := teams_activity.conversationId?.getD "unknown"
  let activity_id := teams_activity.id?.getD "unknown"
  let service_url := teams_activity.serviceUrl?.getD ""
  match llm user_message with
  | .error e => .err e
  | .ok bot_response =>
    let ctx : TeamsContext := ⟨user_name, conversation_id, activity_id, service_url⟩
    if cfg.TEAMS_REPLY_ENABLED = true then
      if service_url ≠ "" ∧ conversation_id ≠ "" ∧ activity_id ≠ "" then
        .ok bot_response sendResult true cfg.TEAMS_REPLY_ENABLED ctx
      else
        .ok bot_response false false cfg.TEAMS_REPLY_ENABLED ctx
    else
      .ok bot_response false false cfg.TEAMS_REPLY_ENABLED ctx

/-- Embeds `handle_test_message` (`bot.py` lines 135-168): returns the
model's trimmed reply, or on any exception the string
`"OpenAI API алдаа: "` followed by the exception text; never raises. -/
def handle_test_message (llm : String → Except String String)
    (user_message : String) : String :=
  match llm user_message with
  | .ok content => content
  | .error e => "OpenAI API алдаа: " ++ e

/-- Response of the development-mode branch of `POST /api/messages`
(`app.py` lines 40-74): the three `JSONResponse` shapes.  `processed`
carries the constants `status = "processed"`, `mode =
"development_teams_direct"` implicitly plus the varying fields
`user_message`, `bot_response`, `reply_sent_to_teams` and `teams_context`
(`none` models the `{}` default used when the result lacks the key);
`ack` carries `status = "ok"`, `mode = "development_teams_system"` and the
`activity_type`; `err` carries `status = "error"` and the exception text. -/
inductive MessagesResponse where
  | processed (user_message bot_response : String) (reply_sent_to_teams : Bool)
      (teams_context : Option TeamsContext)
  | ack (activity_type : String)
  | err (error : String)
deriving DecidableEq, Repr

/-- HTTP status code of each development-mode `/api/messages` response. -/
def messagesStatus : MessagesResponse → Nat
  | .processed _ _ _ _ => 200
  | .ack _ => 200
  | .err _ => 500

/-- Embeds the `Config.DEVELOPMENT_MODE` branch of `on_messages`
(`app.py` lines 40-74).  `parse` is the oracle for `await request.json()`
(exception text on a malformed body); `llm` and `sendResult` are threaded
to `handle_teams_message`.  The second component records whether
`handle_teams_message` (and hence the language model) was invoked. -/
def on_messages_dev (parse : Except String Activity)
    (llm : String → Except String String) (sendResult : Bool)
    (cfg : Config) : MessagesResponse × Bool :=
  match parse with
  | .error e => (.err e, false)
  | .ok body =>
    if body.type? = some "message" ∧ truthyOpt body.text? = true then
      let user_message := body.text?.getD ""
      let result := handle_teams_message cfg user_message body llm sendResult
      (.processed user_message result.bot_response result.reply_sent result.ctx?, true)
    else
      (.ack (body.type?.getD "unknown"), false)

/-- Response of `POST /api/test` (`app.py` lines 85-113): the success
shape, the 400 missing-message shape, or the 500 exception shape. -/
inductive TestResponse where
  | success (user_message bot_response : String)
  | missingMessage
  | err (msg : String)
deriving DecidableEq, Repr

/-- HTTP status code of each `/api/test` response. -/
def testStatus : TestResponse → Nat
  | .success _ _ => 200
  | .missingMessage => 400
  | .err _ => 500

/-- The `error` field of the `/api/test` JSON body (absent on success):
`app.py` line 95 produces the literal `"Message field шаардлагатай"`, and
line 111 produces `"Test mode error: "` followed by the exception text. -/
def testErrorField : TestResponse → Option String
  | .success _ _ => none
  | .missingMessage => some "Message field шаардлагатай"
  | .err e => some ("Test mode error: " ++ e)

/-- Embeds `test_chat` (`app.py` lines 85-113).  `parse` is the oracle for
`await request.json()` followed by `body.get("message", "")` (the optional
`message` field, or an exception for a malformed body); an absent or empty
message yields the 400 response; otherwise `handle_test_message` (which
never raises) produces the reply. -/
def test_chat (parse : Except String (Option String))
    (llm : String → Except String String) : TestResponse :=
  match parse with
  | .error e => .err e
  | .ok msgField =>
    let user_message := msgField.getD ""
    if user_message = "" then
      .missingMessage
    else
      .success user_message (handle_test_message llm user_message)

/-- Cache hit: a truthy cached token with unexpired timestamp is returned
as-is, with the state untouched and no request. -/
theorem get_token_hit (cfg : Config) (st : TokenState) (now : Int)
    (net : HttpTokenResult) (h1 : truthyOpt st.bot_access_token = true)
    (h2 : now < st.token_expires_at) :
    get_bot_access_token cfg st now net = ⟨st.bot_access_token, st, false⟩ := by
  unfold get_bot_access_token
  rw [if_pos ⟨h1, h2⟩]

/-- Cache miss with credentials and a 200 response: the parsed token is
stored with expiry `now + expires_in - 60` (default 3600) and returned. -/
theorem get_token_miss_ok (cfg : Config) (st : TokenState) (now : Int)
    (body : TokenBody)
    (hmiss : ¬(truthyOpt st.bot_access_token = true ∧ now < st.token_expires_at))
    (hid : cfg.APP_ID ≠ "") (hpw : cfg.APP_PASSWORD ≠ "") :
    get_bot_access_token cfg st now (.ok body) =
      ⟨body.access_token, ⟨body.access_token, now + body.expires_in.getD 3600 - 60⟩,
        true⟩ := by
  unfold get_bot_access_token
  rw [if_neg hmiss, if_neg (not_or.mpr ⟨hid, hpw⟩)]

/-- Cache miss with credentials configured: the token endpoint is
contacted, whatever it answers. -/
theorem get_token_miss_request (cfg : Config) (st : TokenState) (now : Int)
    (net : HttpTokenResult)
    (hmiss : ¬(truthyOpt st.bot_access_token = true ∧ now < st.token_expires_at))
    (hid : cfg.APP_ID ≠ "") (hpw : cfg.APP_PASSWORD ≠ "") :
    (get_bot_access_token cfg st now net).requestMade = true := by
  unfold get_bot_access_token
  rw [if_neg hmiss, if_neg (not_or.mpr ⟨hid, hpw⟩)]
  cases net <;> rfl

/-- C2: `get_bot_access_token` returns a truthy unexpired cached token with
no network request; on a cache miss with credentials and a 200 response it
stores the returned token with absolute expiry `now + expires_in - 60`
(`expires_in` defaulting to 3600 when absent); after any call whose
resulting cache holds a non-empty token, a second call before the stored
expiry makes no request and returns that token; and a call on a miss (in
particular after expiry) with credentials configured makes a request —
each call making at most one. -/
theorem c2_token_cache (cfg : Config) (st : TokenState) (now : Int)
    (net : HttpTokenResult) :
    (truthyOpt st.bot_access_token = true → now < st.token_expires_at →
      get_bot_access_token cfg st now net = ⟨st.bot_access_token, st, false⟩) ∧
    (∀ body : TokenBody,
      ¬(truthyOpt st.bot_access_token = true ∧ now < st.token_expires_at) →
      cfg.APP_ID ≠ "" → cfg.APP_PASSWORD ≠ "" → net = .ok body →
      get_bot_access_token cfg st now net =
        ⟨body.access_token, ⟨body.access_token, now + body.expires_in.getD 3600 - 60⟩,
          true⟩) ∧
    (∀ (t : String) (now2 : Int) (net2 : HttpTokenResult),
      (get_bot_access_token cfg st now net).state.bot_access_token = some t →
      t ≠ "" →
      now2 < (get_bot_access_token cfg st now net).state.token_expires_at →
      (get_bot_access_token cfg (get_bot_access_token cfg st now net).state now2
          net2).requestMade = false ∧
      (get_bot_access_token cfg (get_bot_access_token cfg st now net).state now2
          net2).result = some t) ∧
    (¬(truthyOpt st.bot_access_token = true ∧ now < st.token_expires_at) →
      cfg.APP_ID ≠ "" → cfg.APP_PASSWORD ≠ "" →
      (get_bot_access_token cfg st now net).requestMade = true) := by
  refine ⟨fun h1 h2 => get_token_hit cfg st now net h1 h2, ?_, ?_, ?_⟩
  · rintro body hmiss hid hpw rfl
    exact get_token_miss_ok cfg st now body hmiss hid hpw
  · intro t now2 net2 htok ht hlt
    have htruthy : truthyOpt (get_bot_access_token cfg st now net).state.bot_access_token
        = true := by
      rw [htok]; simpa [truthyOpt] using ht
    have h := get_token_hit cfg (get_bot_access_token cfg st now net).state now2 net2
      htruthy hlt
    rw [h]
    exact ⟨rfl, htok⟩
  · intro hmiss hid hpw
    exact get_token_miss_request cfg st now net hmiss hid hpw

/-- C2 witness: with credentials configured, a miss at time 1000 with a 200
response lacking `expires_in` stores `"tok"` with expiry `1000 + 3600 - 60
= 4540`, and a second call at time 2000 returns the cached token with no
request. -/
theorem c2_token_cache_witness :
    (get_bot_access_token ⟨3978, true, false, "bid", "bpw", "", "", "sk", "gpt-3.5-turbo"⟩
        ⟨none, 0⟩ 1000 (.ok ⟨some "tok", none⟩) =
      ⟨some "tok", ⟨some "tok", 4540⟩, true⟩) ∧
    (get_bot_access_token ⟨3978, true, false, "bid", "bpw", "", "", "sk", "gpt-3.5-turbo"⟩
        ⟨some "tok", 4540⟩ 2000 (.exn "e") =
      ⟨some "tok", ⟨some "tok", 4540⟩, false⟩) := by
  constructor
  · have h := (c2_token_cache
        ⟨3978, true, false, "bid", "bpw", "", "", "sk", "gpt-3.5-turbo"⟩
        ⟨none, 0⟩ 1000 (.ok ⟨some "tok", none⟩)).2.1
      ⟨some "tok", none⟩ (by decide) (by decide) (by decide) rfl
    exact h
  · have h := (c2_token_cache
        ⟨3978, true, false, "bid", "bpw", "", "", "sk", "gpt-3.5-turbo"⟩
        ⟨some "tok", 4540⟩ 2000 (.exn "e")).1 (by decide) (by decide)
    exact h

/-- C10: the cache check of `get_bot_access_token` precedes the credential
check — a truthy unexpired cached token is returned (no request) for every
configuration, credentials present or not; the missing-credentials rule
(absent result, no request, cache untouched) applies only on a cache
miss. -/
theorem c10_cache_precedes_credentials (cfg : Config) (st : TokenState)
    (now : Int) (net : HttpTokenResult) (t : String) :
    (st.bot_access_token = some t → t ≠ "" → now < st.token_expires_at →
      (get_bot_access_token cfg st now net).result = some t ∧
      (get_bot_access_token cfg st now net).requestMade = false) ∧
    (¬(truthyOpt st.bot_access_token = true ∧ now < st.token_expires_at) →
      (cfg.APP_ID = "" ∨ cfg.APP_PASSWORD = "") →
      get_bot_access_token cfg st now net = ⟨none, st, false⟩) := by
  constructor
  · intro hsome ht hlt
    have htruthy : truthyOpt st.bot_access_token = true := by
      rw [hsome]; simpa [truthyOpt] using ht
    rw [get_token_hit cfg st now net htruthy hlt]
    exact ⟨hsome, rfl⟩
  · intro hmiss hcreds
    unfold get_bot_access_token
    rw [if_neg hmiss, if_pos hcreds]

/-- C10 witness: a configuration with empty `APP_ID` and `APP_PASSWORD`
still gets the cached token back, and on a miss yields no token and no
request. -/
theorem c10_cache_precedes_credentials_witness :
    ((get_bot_access_token ⟨3978, true, false, "", "", "", "", "sk", "gpt-3.5-turbo"⟩
        ⟨some "tok", 100⟩ 50 (.exn "e")).result = some "tok" ∧
      (get_bot_access_token ⟨3978, true, false, "", "", "", "", "sk", "gpt-3.5-turbo"⟩
        ⟨some "tok", 100⟩ 50 (.exn "e")).requestMade = false) ∧
    (get_bot_access_token ⟨3978, true, false, "", "", "", "", "sk", "gpt-3.5-turbo"⟩
        ⟨none, 0⟩ 50 (.exn "e") = ⟨none, ⟨none, 0⟩, false⟩) := by
  constructor
  · exact (c10_cache_precedes_credentials
      ⟨3978, true, false, "", "", "", "", "sk", "gpt-3.5-turbo"⟩
      ⟨some "tok", 100⟩ 50 (.exn "e") "tok").1 rfl (by decide) (by decide)
  · exact (c10_cache_precedes_credentials
      ⟨3978, true, false, "", "", "", "", "sk", "gpt-3.5-turbo"⟩
      ⟨none, 0⟩ 50 (.exn "e") "tok").2 (by decide) (Or.inl rfl)

/-- C1 counterexample: with replies enabled, an activity whose own `id`
key is absent (while `serviceUrl` and `conversation.id` are present) is
defaulted to `id = "unknown"`, which is truthy, so the code still attempts
delivery (`reply_attempted = true`) and reports the sender's success —
refuting the claim that absence of any of the three fields skips delivery
with `reply_sent = false`. -/
theorem c1_counterexample :
    (⟨some "message", some "hi", some "Alice", some "c1", none,
        some "https://x/"⟩ : Activity).id? = none ∧
    (handle_teams_message
        ⟨3978, true, true, "bid", "bpw", "", "", "sk", "gpt-3.5-turbo"⟩ "hi"
        ⟨some "message", some "hi", some "Alice", some "c1", none, some "https://x/"⟩
        (fun _ => .ok "resp") true).reply_attempted = true ∧
    (handle_teams_message
        ⟨3978, true, true, "bid", "bpw", "", "", "sk", "gpt-3.5-turbo"⟩ "hi"
        ⟨some "message", some "hi", some "Alice", some "c1", none, some "https://x/"⟩
        (fun _ => .ok "resp") true).reply_sent = true := by
  decide

/-- C1 (amended): when the model call succeeds, `handle_teams_message`
attempts delivery (`reply_attempted = true`, `send_teams_reply` called)
exactly when `TEAMS_REPLY_ENABLED` holds and the extracted `serviceUrl`
(default `""`), `conversation.id` (default `"unknown"`) and activity `id`
(default `"unknown"`) are all non-empty — so an absent `conversation.id`
or `id` does NOT skip delivery (the default is truthy); only an absent or
empty `serviceUrl`, or an explicitly empty field, does.  When delivery is
skipped `reply_sent = false`; when attempted, `reply_sent` is the sender's
result. -/
theorem c1_reply_gating (cfg : Config) (msg r : String) (act : Activity)
    (send : Bool) :
    ((handle_teams_message cfg msg act (fun _ => .ok r) send).reply_attempted = true ↔
      (cfg.TEAMS_REPLY_ENABLED = true ∧ act.serviceUrl?.getD "" ≠ "" ∧
        act.conversationId?.getD "unknown" ≠ "" ∧ act.id?.getD "unknown" ≠ "")) ∧
    ((handle_teams_message cfg msg act (fun _ => .ok r) send).reply_attempted = false →
      (handle_teams_message cfg msg act (fun _ => .ok r) send).reply_sent = false) ∧
    ((handle_teams_message cfg msg act (fun _ => .ok r) send).reply_attempted = true →
      (handle_teams_message cfg msg act (fun _ => .ok r) send).reply_sent = send) := by
  unfold handle_teams_message
  by_cases hen : cfg.TEAMS_REPLY_ENABLED = true
  · by_cases hf : act.serviceUrl?.getD "" ≠ "" ∧ act.conversationId?.getD "unknown" ≠ "" ∧
        act.id?.getD "unknown" ≠ ""
    · simp [hen, hf, TeamsResult.reply_attempted, TeamsResult.reply_sent]
    · simp [hen, hf, TeamsResult.reply_attempted, TeamsResult.reply_sent]
  · simp [hen, TeamsResult.reply_attempted, TeamsResult.reply_sent]

/-- C1 witness: with replies enabled and all three fields present and
non-empty, delivery is attempted and `reply_sent` echoes the sender's
success. -/
theorem c1_reply_gating_witness :
    (handle_teams_message
        ⟨3978, true, true, "bid", "bpw", "", "", "sk", "gpt-3.5-turbo"⟩ "hi"
        ⟨some "message", some "hi", some "Alice", some "c1", some "a1",
          some "https://x/"⟩
        (fun _ => .ok "resp") true).reply_sent = true :=
  (c1_reply_gating ⟨3978, true, true, "bid", "bpw", "", "", "sk", "gpt-3.5-turbo"⟩
      "hi" "resp"
      ⟨some "message", some "hi", some "Alice", some "c1", some "a1", some "https://x/"⟩
      true).2.2 (by decide)

/-- C3 counterexample: on a cache miss, `send_teams_reply` runs
`get_bot_access_token`, which stores the freshly fetched token; a
subsequent non-401 failure (status 403) leaves that fresh token in the
cache, so the cache is NOT equal to its value at entry — refuting the
claim that on any non-401 failure the token cache is left unchanged. -/
theorem c3_counterexample :
    (send_teams_reply ⟨3978, true, true, "bid", "bpw", "", "", "sk", "gpt-3.5-turbo"⟩
        "https://x/" "c1" "a1" "resp" none ⟨none, 0⟩ 1000
        (.ok ⟨some "tok", some 3600⟩) (.status 403 "forbidden")).success = false ∧
    (send_teams_reply ⟨3978, true, true, "bid", "bpw", "", "", "sk", "gpt-3.5-turbo"⟩
        "https://x/" "c1" "a1" "resp" none ⟨none, 0⟩ 1000
        (.ok ⟨some "tok", some 3600⟩) (.status 403 "forbidden")).state ≠
      (⟨none, 0⟩ : TokenState) := by
  decide

/-- Every branch of `send_teams_reply` records the same `authAttached`:
the truthiness of the token returned by the embedded
`get_bot_access_token` call. -/
theorem send_authAttached (cfg : Config) (su ci ai br : String)
    (aid : Option String) (st : TokenState) (now : Int)
    (tnet : HttpTokenResult) (pnet : PostResult) :
    (send_teams_reply cfg su ci ai br aid st now tnet pnet).authAttached =
      truthyOpt (get_bot_access_token cfg st now tnet).result := by
  cases pnet with
  | exn m => rfl
  | status code text =>
    dsimp only [send_teams_reply]
    split_ifs <;> rfl

/-- C3 (amended): if the reply POST returns 401 and a bearer token was
attached, `send_teams_reply` clears the cached token and expiry (to
`(None, 0)`) without retrying the send (exactly one POST), and from the
cleared cache the next `get_bot_access_token` call with credentials
configured issues a fresh token request; on any other failure status, or a
401 without an attached token, the failure handling does not touch the
cache — it is left exactly as the embedded `get_bot_access_token` call left
it (which may itself have stored a fresh token on a cache miss). -/
theorem c3_401_clears_cache (cfg : Config)
    (su ci ai br : String) (aid : Option String) (st : TokenState) (now : Int)
    (tnet : HttpTokenResult) (pnet : PostResult) :
    (∀ txt, pnet = .status 401 txt →
      (send_teams_reply cfg su ci ai br aid st now tnet pnet).authAttached = true →
      (send_teams_reply cfg su ci ai br aid st now tnet pnet).state = ⟨none, 0⟩ ∧
      (send_teams_reply cfg su ci ai br aid st now tnet pnet).success = false ∧
      (send_teams_reply cfg su ci ai br aid st now tnet pnet).postAttempts = 1) ∧
    (∀ code txt, pnet = .status code txt → code ≠ 200 → code ≠ 201 →
      ¬(code = 401 ∧
        (send_teams_reply cfg su ci ai br aid st now tnet pnet).authAttached = true) →
      (send_teams_reply cfg su ci ai br aid st now tnet pnet).state =
        (get_bot_access_token cfg st now tnet).state ∧
      (send_teams_reply cfg su ci ai br aid st now tnet pnet).success = false) ∧
    (∀ (now2 : Int) (net2 : HttpTokenResult),
      cfg.APP_ID ≠ "" → cfg.APP_PASSWORD ≠ "" →
      (get_bot_access_token cfg ⟨none, 0⟩ now2 net2).requestMade = true) := by
  refine ⟨?_, ?_, ?_⟩
  · rintro txt rfl hatt
    rw [send_authAttached] at hatt
    dsimp only [send_teams_reply]
    rw [if_neg (by decide : ¬((401 : Nat) = 200 ∨ (401 : Nat) = 201)),
      if_pos ⟨rfl, hatt⟩]
    exact ⟨rfl, rfl, rfl⟩
  · rintro code txt rfl h200 h201 hnot
    rw [send_authAttached] at hnot
    dsimp only [send_teams_reply]
    rw [if_neg (by simp [h200, h201]), if_neg hnot]
    exact ⟨rfl, rfl⟩
  · intro now2 net2 hid hpw
    exact get_token_miss_request cfg ⟨none, 0⟩ now2 net2 (by simp [truthyOpt]) hid hpw

/-- C3 witness: a 401 with an attached token clears the cache, performs
exactly one POST, and the next token call from the cleared cache contacts
the token endpoint. -/
theorem c3_401_clears_cache_witness :
    ((send_teams_reply ⟨3978, true, true, "bid", "bpw", "", "", "sk", "gpt-3.5-turbo"⟩
        "https://x/" "c1" "a1" "resp" none ⟨some "tok", 9999⟩ 1000
        (.exn "unused") (.status 401 "unauthorized")).state = ⟨none, 0⟩ ∧
      (send_teams_reply ⟨3978, true, true, "bid", "bpw", "", "", "sk", "gpt-3.5-turbo"⟩
        "https://x/" "c1" "a1" "resp" none ⟨some "tok", 9999⟩ 1000
        (.exn "unused") (.status 401 "unauthorized")).success = false ∧
      (send_teams_reply ⟨3978, true, true, "bid", "bpw", "", "", "sk", "gpt-3.5-turbo"⟩
        "https://x/" "c1" "a1" "resp" none ⟨some "tok", 9999⟩ 1000
        (.exn "unused") (.status 401 "unauthorized")).postAttempts = 1) ∧
    (get_bot_access_token ⟨3978, true, true, "bid", "bpw", "", "", "sk", "gpt-3.5-turbo"⟩
        ⟨none, 0⟩ 1000 (.errStatus 500 "oops")).requestMade = true := by
  constructor
  · exact (c3_401_clears_cache
      ⟨3978, true, true, "bid", "bpw", "", "", "sk", "gpt-3.5-turbo"⟩
      "https://x/" "c1" "a1" "resp" none ⟨some "tok", 9999⟩ 1000
      (.exn "unused") (.status 401 "unauthorized")).1 "unauthorized" rfl (by decide)
  · exact (c3_401_clears_cache
      ⟨3978, true, true, "bid", "bpw", "", "", "sk", "gpt-3.5-turbo"⟩
      "https://x/" "c1" "a1" "resp" none ⟨some "tok", 9999⟩ 1000
      (.exn "unused") (.status 401 "unauthorized")).2.2 1000
      (.errStatus 500 "oops") (by decide) (by decide)

/-- C6: `send_teams_reply` returns `true` exactly when the reply POST got
status 200 or 201; every other status and every transport exception yields
`false`.  The embedding is a total function, matching the source's
catch-all `except` (the call never raises). -/
theorem c6_send_success_iff (cfg : Config) (su ci ai br : String)
    (aid : Option String) (st : TokenState) (now : Int)
    (tnet : HttpTokenResult) (pnet : PostResult) :
    (send_teams_reply cfg su ci ai br aid st now tnet pnet).success = true ↔
      ∃ code text, pnet = .status code text ∧ (code = 200 ∨ code = 201) := by
  cases pnet with
  | exn m => simp [send_teams_reply]
  | status code text =>
    by_cases h : code = 200 ∨ code = 201
    · simp [send_teams_reply, h]
    · dsimp only [send_teams_reply]
      rw [if_neg h]
      constructor
      · intro hfalse
        exfalso
        by_cases h401 : code = 401 ∧
            truthyOpt (get_bot_access_token cfg st now tnet).result = true
        · rw [if_pos h401] at hfalse; simp at hfalse
        · rw [if_neg h401] at hfalse; simp at hfalse
      · rintro ⟨code', text', heq, hc⟩
        injection heq with h1 h2
        subst h1
        exact absurd hc h

/-- C4: in development mode, a JSON body with `type = "message"` and
non-empty `text` makes the webhook call `handle_teams_message` (second
component `true`) and answer 200 with the echoed user message, the bot
reply, the delivery flag and the teams context; any other successfully
parsed body is acknowledged with 200 carrying the activity's type and
without invoking the handler (hence the language model); a body-parse
exception yields the 500 `status = "error"` response carrying the
exception text. -/
theorem c4_dev_webhook (cfg : Config) (act : Activity)
    (llm : String → Except String String) (send : Bool) (e : String) :
    (∀ t : String, act.type? = some "message" → act.text? = some t → t ≠ "" →
      on_messages_dev (.ok act) llm send cfg =
        (.processed t (handle_teams_message cfg t act llm send).bot_response
          (handle_teams_message cfg t act llm send).reply_sent
          (handle_teams_message cfg t act llm send).ctx?, true) ∧
      messagesStatus (on_messages_dev (.ok act) llm send cfg).1 = 200) ∧
    (¬(act.type? = some "message" ∧ truthyOpt act.text? = true) →
      on_messages_dev (.ok act) llm send cfg =
        (.ack (act.type?.getD "unknown"), false) ∧
      messagesStatus (on_messages_dev (.ok act) llm send cfg).1 = 200) ∧
    (on_messages_dev (.error e) llm send cfg = (.err e, false) ∧
      messagesStatus (.err e) = 500) := by
  refine ⟨?_, ?_, ⟨rfl, rfl⟩⟩
  · intro t h1 h2 h3
    have hcond : act.type? = some "message" ∧ truthyOpt act.text? = true := by
      refine ⟨h1, ?_⟩
      rw [h2]; simpa [truthyOpt] using h3
    have hmsg : on_messages_dev (.ok act) llm send cfg =
        (.processed t (handle_teams_message cfg t act llm send).bot_response
          (handle_teams_message cfg t act llm send).reply_sent
          (handle_teams_message cfg t act llm send).ctx?, true) := by
      dsimp only [on_messages_dev]
      rw [if_pos hcond, h2]
      rfl
    exact ⟨hmsg, by rw [hmsg]; rfl⟩
  · intro hcond
    have hack : on_messages_dev (.ok act) llm send cfg =
        (.ack (act.type?.getD "unknown"), false) := by
      dsimp only [on_messages_dev]
      rw [if_neg hcond]
    exact ⟨hack, by rw [hack]; rfl⟩

/-- C4 witness: a full message activity is processed with status 200, and
a `conversationUpdate` activity is acknowledged without a handler call. -/
theorem c4_dev_webhook_witness :
    (on_messages_dev
        (.ok ⟨some "message", some "hello", some "Alice", some "c1", some "a1",
          some "https://x/"⟩)
        (fun _ => .ok "resp") false
        ⟨3978, true, false, "", "", "", "", "sk", "gpt-3.5-turbo"⟩ =
      (.processed "hello"
        (handle_teams_message ⟨3978, true, false, "", "", "", "", "sk", "gpt-3.5-turbo"⟩
          "hello"
          ⟨some "message", some "hello", some "Alice", some "c1", some "a1",
            some "https://x/"⟩ (fun _ => .ok "resp") false).bot_response
        (handle_teams_message ⟨3978, true, false, "", "", "", "", "sk", "gpt-3.5-turbo"⟩
          "hello"
          ⟨some "message", some "hello", some "Alice", some "c1", some "a1",
            some "https://x/"⟩ (fun _ => .ok "resp") false).reply_sent
        (handle_teams_message ⟨3978, true, false, "", "", "", "", "sk", "gpt-3.5-turbo"⟩
          "hello"
          ⟨some "message", some "hello", some "Alice", some "c1", some "a1",
            some "https://x/"⟩ (fun _ => .ok "resp") false).ctx?, true)) ∧
    (on_messages_dev
        (.ok ⟨some "conversationUpdate", none, none, some "c1", some "a1",
          some "https://x/"⟩)
        (fun _ => .ok "resp") false
        ⟨3978, true, false, "", "", "", "", "sk", "gpt-3.5-turbo"⟩ =
      (.ack "conversationUpdate", false)) := by
  constructor
  · exact ((c4_dev_webhook ⟨3978, true, false, "", "", "", "", "sk", "gpt-3.5-turbo"⟩
      ⟨some "message", some "hello", some "Alice", some "c1", some "a1", some "https://x/"⟩
      (fun _ => .ok "resp") false "e").1 "hello" rfl rfl (by decide)).1
  · exact ((c4_dev_webhook ⟨3978, true, false, "", "", "", "", "sk", "gpt-3.5-turbo"⟩
      ⟨some "conversationUpdate", none, none, some "c1", some "a1", some "https://x/"⟩
      (fun _ => .ok "resp") false "e").2.1 (by decide)).1

/-- C5: when the model call raises, `handle_teams_message` returns the
exception-shape result — `bot_response` is `"Teams OpenAI алдаа: "`
followed by the exception's text, both delivery flags are `false` — and
the embedding is total, matching the source's catch-all `except` (the
handler never raises); consequently the development-mode webhook still
answers 200 for any parsed body when the model fails. -/
theorem c5_handler_never_raises (cfg : Config) (msg : String) (act : Activity)
    (e : String) (send : Bool) :
    (handle_teams_message cfg msg act (fun _ => .error e) send = .err e) ∧
    ((handle_teams_message cfg msg act (fun _ => .error e) send).bot_response =
      "Teams OpenAI алдаа: " ++ e) ∧
    ((handle_teams_message cfg msg act (fun _ => .error e) send).reply_sent = false) ∧
    ((handle_teams_message cfg msg act (fun _ => .error e) send).reply_attempted = false) ∧
    (messagesStatus (on_messages_dev (.ok act) (fun _ => .error e) send cfg).1 = 200) := by
  refine ⟨rfl, rfl, rfl, rfl, ?_⟩
  dsimp only [on_messages_dev]
  by_cases hcond : act.type? = some "message" ∧ truthyOpt act.text? = true
  · rw [if_pos hcond]; rfl
  · rw [if_neg hcond]; rfl

/-- C7 counterexample: a body whose `message` field is absent yields
status 400, but the JSON `error` field is the literal
`"Message field шаардлагатай"` from `app.py` line 95, not the claim's
`"Message field required"`. -/
theorem c7_counterexample :
    testStatus (test_chat (.ok none) (fun _ => .ok "r")) = 400 ∧
    testErrorField (test_chat (.ok none) (fun _ => .ok "r")) =
      some "Message field шаардлагатай" ∧
    testErrorField (test_chat (.ok none) (fun _ => .ok "r")) ≠
      some "Message field required" := by
  decide

/-- C7 (amended): a POST to `/api/test` whose `message` field is missing
or empty gets HTTP 400 with JSON body carrying the error text
`"Message field шаардлагатай"` (the spec's "Message field required" is an
English paraphrase, not the literal body); any other exception during
handling gets HTTP 500 with error `"Test mode error: "` followed by the
exception's text. -/
theorem c7_test_errors (llm : String → Except String String) (e : String)
    (mf : Option String) :
    (mf = none ∨ mf = some "" →
      test_chat (.ok mf) llm = .missingMessage ∧
      testStatus (test_chat (.ok mf) llm) = 400 ∧
      testErrorField (test_chat (.ok mf) llm) = some "Message field шаардлагатай") ∧
    (test_chat (.error e) llm = .err e ∧
      testStatus (test_chat (.error e) llm) = 500 ∧
      testErrorField (test_chat (.error e) llm) = some ("Test mode error: " ++ e)) := by
  constructor
  · rintro (rfl | rfl) <;> exact ⟨rfl, rfl, rfl⟩
  · exact ⟨rfl, rfl, rfl⟩

/-- C7 witness: an empty `message` field is rejected with 400 and the
Mongolian error text. -/
theorem c7_test_errors_witness :
    test_chat (.ok (some "")) (fun _ => .ok "r") = .missingMessage ∧
    testStatus (test_chat (.ok (some "")) (fun _ => .ok "r")) = 400 ∧
    testErrorField (test_chat (.ok (some "")) (fun _ => .ok "r")) =
      some "Message field шаардлагатай" :=
  (c7_test_errors (fun _ => .ok "r") "boom" (some "")).1 (Or.inr rfl)

/-- C8: constructing the settings object without `OPENAI_API_KEY` in the
environment fails (the raising lookup `os.environ["OPENAI_API_KEY"]`), and
the startup pipeline — which constructs the `Config` at import time,
before `uvicorn.run` — therefore never reaches a running listener; nothing
catches the failure. -/
theorem c8_missing_key_fatal (env : Env)
    (h : env.lookup "OPENAI_API_KEY" = none) :
    (∃ e, mkConfig env = .error e) ∧ ∀ s : Server, runProcess env ≠ .ok s := by
  have hcfg : ∃ e, mkConfig env = .error e := by
    dsimp only [mkConfig]
    cases hp : portFromEnv env with
    | error e => exact ⟨e, rfl⟩
    | ok port => rw [h]; exact ⟨"KeyError: OPENAI_API_KEY", rfl⟩
  refine ⟨hcfg, ?_⟩
  intro s hs
  obtain ⟨e, he⟩ := hcfg
  dsimp only [runProcess] at hs
  rw [he] at hs
  exact Except.noConfusion hs

/-- C8 witness: the empty environment has no `OPENAI_API_KEY`, so
construction errors and no server value is produced. -/
theorem c8_missing_key_fatal_witness :
    (∃ e, mkConfig [] = .error e) ∧ ∀ s : Server, runProcess [] ≠ .ok s :=
  c8_missing_key_fatal [] rfl

/-- C9: in any successfully constructed settings object,
`DEVELOPMENT_MODE` and `TEAMS_REPLY_ENABLED` are true exactly when the
lower-cased environment value equals `"true"` (any other value gives
false), and an absent variable defaults `DEVELOPMENT_MODE` to true and
`TEAMS_REPLY_ENABLED` to false. -/
theorem c9_bool_env_parsing (env : Env) (c : Config)
    (h : mkConfig env = .ok c) :
    (∀ v, env.lookup "DEVELOPMENT_MODE" = some v →
      (c.DEVELOPMENT_MODE = true ↔ pyLower v = "true")) ∧
    (env.lookup "DEVELOPMENT_MODE" = none → c.DEVELOPMENT_MODE = true) ∧
    (∀ v, env.lookup "TEAMS_REPLY_ENABLED" = some v →
      (c.TEAMS_REPLY_ENABLED = true ↔ pyLower v = "true")) ∧
    (env.lookup "TEAMS_REPLY_ENABLED" = none → c.TEAMS_REPLY_ENABLED = false) := by
  dsimp only [mkConfig] at h
  cases hp : portFromEnv env with
  | error e => rw [hp] at h; exact absurd h (by simp)
  | ok port =>
    rw [hp] at h
    cases hk : env.lookup "OPENAI_API_KEY" with
    | none => rw [hk] at h; exact absurd h (by simp)
    | some key =>
      rw [hk] at h
      injection h with h2
      subst h2
      refine ⟨?_, ?_, ?_, ?_⟩
      · intro v hv
        simp [pyBoolEnv, hv]
      · intro hv
        simp [pyBoolEnv, hv]
        decide
      · intro v hv
        simp [pyBoolEnv, hv]
      · intro hv
        simp [pyBoolEnv, hv]
        decide

/-- C9 witness: `DEVELOPMENT_MODE=TRUE` parses to true and
`TEAMS_REPLY_ENABLED=nope` parses to false. -/
theorem c9_bool_env_parsing_witness :
    mkConfig [("OPENAI_API_KEY", "sk"), ("DEVELOPMENT_MODE", "TRUE"),
        ("TEAMS_REPLY_ENABLED", "nope")] =
      .ok ⟨3978, true, false, "", "", "", "", "sk", "gpt-3.5-turbo"⟩ ∧
    (⟨3978, true, false, "", "", "", "", "sk",
        "gpt-3.5-turbo"⟩ : Config).DEVELOPMENT_MODE = true ∧
    (⟨3978, true, false, "", "", "", "", "sk",
        "gpt-3.5-turbo"⟩ : Config).TEAMS_REPLY_ENABLED = false := by
  refine ⟨rfl, ?_, ?_⟩
  · exact ((c9_bool_env_parsing
      [("OPENAI_API_KEY", "sk"), ("DEVELOPMENT_MODE", "TRUE"),
        ("TEAMS_REPLY_ENABLED", "nope")]
      ⟨3978, true, false, "", "", "", "", "sk", "gpt-3.5-turbo"⟩ (by rfl)).1
      "TRUE" rfl).mpr (by decide)
  · have h := (c9_bool_env_parsing
      [("OPENAI_API_KEY", "sk"), ("DEVELOPMENT_MODE", "TRUE"),
        ("TEAMS_REPLY_ENABLED", "nope")]
      ⟨3978, true, false, "", "", "", "", "sk", "gpt-3.5-turbo"⟩ (by rfl)).2.2.1
      "nope" rfl
    exact Bool.eq_false_iff.mpr (fun hc => absurd (h.mp hc) (by decide))

-- scratch checks
example : pyBoolEnv [("DEVELOPMENT_MODE", "TRUE")] "DEVELOPMENT_MODE" "true" = true := by decide
example : pyBoolEnv [] "DEVELOPMENT_MODE" "true" = true := by decide
example : pyBoolEnv [("TEAMS_REPLY_ENABLED", "yes")] "TEAMS_REPLY_ENABLED" "false" = false := by decide
example : (runProcess []).isOk = false := by decide
example : (mkConfig [("OPENAI_API_KEY", "sk")]).isOk = true := by decide
example :
    ((mkConfig [("OPENAI_API_KEY", "sk"), ("DEVELOPMENT_MODE", "TrUe")]).toOption.map
      Config.DEVELOPMENT_MODE) = some true := by decide
example :
    get_bot_access_token ⟨3978, true, false, "", "", "", "", "sk", "gpt-3.5-turbo"⟩
      ⟨some "tok", 100⟩ 50 (.exn "e") = ⟨some "tok", ⟨some "tok", 100⟩, false⟩ := by decide

end TeamsBot
